import Mathlib

/-!
Verification development for the plant-disease inference service
(src/backend/app.py). Python strings are embedded as lists of characters;
fallible Python expressions (the ones whose exceptions the handlers catch)
are embedded as Except values carrying the exception text; the external
numeric pipeline (torchvision transform, forward pass, softmax, argmax) is
a parameter supplying its outcome, since the embedded code only consumes
the resulting class index and confidence.
-/

set_option maxRecDepth 8000

namespace PlantApp

/-- Python prefix test on strings: startswith p s is true when the list s
begins with the list p, modelling the expression s.startswith(p). -/
def startswith : List Char → List Char → Bool
  | [], _ => true
  | _ :: _, [] => false
  | a :: as, b :: bs => a == b && startswith as bs

/-- Python substring containment on strings: inStr needle hay models the
Python expression needle in hay for two strings. -/
def inStr (needle : List Char) : List Char → Bool
  | [] => needle.isEmpty
  | c :: rest => startswith needle (c :: rest) || inStr needle rest

/-- Python str.lower applied characterwise; the labels are ASCII, where
Char.toLower agrees with Python. -/
def lower (s : List Char) : List Char := s.map Char.toLower

/-- Replacement of every underscore by a space, modelling the expression
x.replace(underscore, space) from app.py lines 115 and 120. -/
def replUnd (s : List Char) : List Char :=
  s.map fun c => if c == '_' then ' ' else c

/-- Python split on the three-underscore delimiter, modelling the
expression class_name.split(delim) from app.py lines 115 and 118: scans
left to right, consuming non-overlapping occurrences of the delimiter. -/
def split3 : List Char → List (List Char)
  | '_' :: '_' :: '_' :: rest => [] :: split3 rest
  | c :: rest =>
    match split3 rest with
    | [] => [[c]]
    | h :: t => (c :: h) :: t
  | [] => [[]]

/-- Longest prefix of the string strictly before the first occurrence of
the three-underscore delimiter; the whole string when the delimiter does
not occur. This is the specification side of the phrase "the substring
before the delimiter". -/
def beforeDelim : List Char → List Char
  | '_' :: '_' :: '_' :: _ => []
  | c :: rest => c :: beforeDelim rest
  | [] => []

/-- Python split on a comma, modelling image_data.split(sep) with a
one-character separator at app.py line 142. -/
def splitComma : List Char → List (List Char)
  | [] => [[]]
  | c :: rest =>
    if c = ',' then [] :: splitComma rest
    else
      match splitComma rest with
      | [] => [[c]]
      | h :: t => (c :: h) :: t

/-- Token searched for by the health heuristic at app.py lines 106 and 108. -/
def healthyL : List Char := "healthy".data

/-- Label catalog from app.py lines 21 to 61, in source order, entry for
entry (including the repeated Strawberry healthy entry). -/
def CLASS_NAMES : List (List Char) :=
  [ "Apple___Apple_scab".data,
    "Apple___Black_rot".data,
    "Apple___Cedar_apple_rust".data,
    "Apple___healthy".data,
    "Blueberry___healthy".data,
    "Cherry_(including_sour)___healthy".data,
    "Cherry_(including_sour)___Powdery_mildew".data,
    "Corn_(maize)___Cercospora_leaf_spot Gray_leaf_spot".data,
    "Corn_(maize)___Common_rust_".data,
    "Corn_(maize)___healthy".data,
    "Corn_(maize)___Northern_Leaf_Blight".data,
    "Grape___Black_rot".data,
    "Grape___Esca_(Black_Measles)".data,
    "Grape___healthy".data,
    "Grape___Leaf_blight_(Isariopsis_Leaf_Spot)".data,
    "Orange___Haunglongbing_(Citrus_greening)".data,
    "Peach___Bacterial_spot".data,
    "Peach___healthy".data,
    "Pepper,_bell___Bacterial_spot".data,
    "Pepper,_bell___healthy".data,
    "Potato___Early_blight".data,
    "Potato___healthy".data,
    "Potato___Late_blight".data,
    "Raspberry___healthy".data,
    "Soybean___healthy".data,
    "Squash___Powdery_mildew".data,
    "Strawberry___healthy".data,
    "Strawberry___Leaf_scorch".data,
    "Strawberry___healthy".data,
    "Tomato___Bacterial_spot".data,
    "Tomato___Early_blight".data,
    "Tomato___Late_blight".data,
    "Tomato___Leaf_Mold".data,
    "Tomato___Septoria_leaf_spot".data,
    "Tomato___Spider_mites Two-spotted_spider_mite".data,
    "Tomato___Target_Spot".data,
    "Tomato___Tomato_Yellow_Leaf_Curl_Virus".data,
    "Tomato___Tomato_mosaic_virus".data,
    "Tomato___healthy".data ]

/-- Response record built by PlantDiseaseModel.predict (app.py lines 103
to 109); confidence is modelled over the rationals. -/
structure DiagnosisResult where
  className : List Char
  confidence : ℚ
  isHealthy : Bool
  plantType : List Char
  diseaseType : Option (List Char)
deriving DecidableEq

/-- Embedding of PlantDiseaseModel._extract_plant_type (app.py lines 114
to 115): first split segment with underscores replaced by spaces. The
Python index zero cannot fail because split always yields at least one
segment; headD is its total counterpart. -/
def extract_plant_type (class_name : List Char) : List Char :=
  replUnd ((split3 class_name).headD [])

/-- Embedding of PlantDiseaseModel._extract_disease_type (app.py lines
117 to 121): the second split segment, underscores replaced, unless it is
missing or itself contains the health token. -/
def extract_disease_type (class_name : List Char) : Option (List Char) :=
  match (split3 class_name).get? 1 with
  | some p => if inStr healthyL (lower p) then none else some (replUnd p)
  | none => none

/-- Construction of the response record from the predicted label and
confidence, app.py lines 103 to 109. -/
def mkResult (predicted_class : List Char) (confidence_score : ℚ) :
    DiagnosisResult :=
  { className := predicted_class
    confidence := confidence_score
    isHealthy := inStr healthyL (lower predicted_class)
    plantType := extract_plant_type predicted_class
    diseaseType :=
      if inStr healthyL (lower predicted_class) then none
      else extract_disease_type predicted_class }

/-- Embedding of PlantDiseaseModel.predict (app.py lines 89 to 112). The
numeric pipeline (transform, forward pass, softmax, max) is supplied as
its outcome: either an exception text or the pair of predicted index and
confidence. An out-of-range catalog index raises IndexError inside the
same try block, so it also lands in the except branch; every caught
exception yields None, embedded as none. -/
def predict (inference : Except (List Char) (Nat × ℚ)) :
    Option DiagnosisResult :=
  match inference with
  | .error _ => none
  | .ok (idx, conf) =>
    match CLASS_NAMES.get? idx with
    | none => none
    | some label => some (mkResult label conf)

/-- JSON bodies of HTTP responses from the handlers: either the
serialized diagnosis record or an object with a single error field. -/
inductive RespBody where
  | result (r : DiagnosisResult)
  | err (msg : List Char)
deriving DecidableEq

/-- Fixed 400 message of the predict handler, app.py line 136. -/
def noImageMsg : List Char := "No image provided".data

/-- Fixed 400 message of the URL handler, app.py line 169. -/
def noUrlMsg : List Char := "No image URL provided".data

/-- Fixed 500 message for an absent prediction, app.py lines 153 and 186. -/
def predictionFailedMsg : List Char := "Prediction failed".data

/-- Embedding of app.py lines 150 to 153: a present result is returned
with status 200, an absent one as a generic 500. The Python truthiness
test on the result also treats an empty dict as absent, but predict only
ever returns a five-field dict or None, so presence is the exact test. -/
def respondResult : Option DiagnosisResult → Nat × RespBody
  | some r => (200, RespBody.result r)
  | none => (500, RespBody.err predictionFailedMsg)

/-- Parsed JSON values as returned by request.get_json. -/
inductive Json where
  | null
  | bool (b : Bool)
  | num (q : ℚ)
  | str (s : List Char)
  | arr (xs : List Json)
  | obj (fields : List (List Char × Json))

/-- Python equality of a string key against a JSON value, as evaluated
elementwise by the operator in on a list: only an equal string matches. -/
def eqStrJson (key : List Char) : Json → Bool
  | Json.str s => s == key
  | _ => false

/-- Exception text raised by the operator in on None. -/
def typeErrNone : List Char :=
  "argument of type NoneType is not iterable".data

/-- Exception text raised by the operator in on a bool. -/
def typeErrBool : List Char :=
  "argument of type bool is not iterable".data

/-- Exception text raised by the operator in on a number. -/
def typeErrNum : List Char :=
  "argument of type int is not iterable".data

/-- Embedding of the Python expression key in data for a parsed JSON
body: key membership on a dict, substring search on a string, elementwise
equality on a list, and a TypeError on the non-iterable values None,
bool and numbers. -/
def inJson (key : List Char) : Json → Except (List Char) Bool
  | Json.obj fields => Except.ok (fields.any fun kv => kv.1 == key)
  | Json.str s => Except.ok (inStr key s)
  | Json.arr xs => Except.ok (xs.any (eqStrJson key))
  | Json.null => Except.error typeErrNone
  | Json.bool _ => Except.error typeErrBool
  | Json.num _ => Except.error typeErrNum

/-- Exception text for subscripting a string with a string key. -/
def strIndicesMsg : List Char := "string indices must be integers".data

/-- Exception text for subscripting a list with a string key. -/
def listIndicesMsg : List Char :=
  "list indices must be integers or slices, not str".data

/-- Exception text for subscripting a non-subscriptable value. -/
def notSubscriptableMsg : List Char := "object is not subscriptable".data

/-- Embedding of the Python expression data[key] on a parsed JSON body:
dict lookup (KeyError text modelled as the key itself), TypeError on a
string or list index, TypeError on the remaining values. -/
def subscriptJson (key : List Char) : Json → Except (List Char) Json
  | Json.obj fields =>
    match fields.find? (fun kv => kv.1 == key) with
    | some kv => Except.ok kv.2
    | none => Except.error key
  | Json.str _ => Except.error strIndicesMsg
  | Json.arr _ => Except.error listIndicesMsg
  | Json.null => Except.error notSubscriptableMsg
  | Json.bool _ => Except.error notSubscriptableMsg
  | Json.num _ => Except.error notSubscriptableMsg

/-- Data-URL marker tested by startswith at app.py line 140. -/
def dataImageTag : List Char := "data:image".data

/-- Exception text for a missing second comma segment. -/
def listIndexRangeMsg : List Char := "list index out of range".data

/-- Exception text for calling startswith on a non-string value. -/
def startswithAttrMsg : List Char :=
  "object has no attribute startswith".data

/-- Embedding of app.py lines 140 to 142: when the payload starts with
the data-URL marker, keep the second comma-separated segment (IndexError
when there is none); otherwise keep the payload unchanged. -/
def stripDataUrl (image_data : List Char) : Except (List Char) (List Char) :=
  if startswith dataImageTag image_data then
    match (splitComma image_data).get? 1 with
    | some seg => Except.ok seg
    | none => Except.error listIndexRangeMsg
  else Except.ok image_data

/-- Key looked up by the predict handler. -/
def imageKey : List Char := "image".data

/-- Key looked up by the URL handler. -/
def urlKey : List Char := "url".data

/-- Embedding of the predict route handler, app.py lines 130 to 157, on a
parsed JSON body. Any exception escaping the try block is answered with
status 500 and the exception text. The pipeline from base64 decoding
through inference and response shaping consumes only the stripped payload
string and is supplied as the parameter pipe. -/
def predictHandler (pipe : List Char → Nat × RespBody) (data : Json) :
    Nat × RespBody :=
  match inJson imageKey data with
  | .error e => (500, RespBody.err e)
  | .ok b =>
    if b then
      match subscriptJson imageKey data with
      | .error e => (500, RespBody.err e)
      | .ok (Json.str image_data) =>
        match stripDataUrl image_data with
        | .error e => (500, RespBody.err e)
        | .ok stripped => pipe stripped
      | .ok _ => (500, RespBody.err startswithAttrMsg)
    else (400, RespBody.err noImageMsg)

/-- Loaded network after initialization: either the deserialized file or
the untrained fallback resnet with its final layer resized to the catalog
(app.py lines 75 to 87). -/
inductive LoadedNet where
  | fromFile
  | dummyResnet
deriving DecidableEq

/-- Embedding of PlantDiseaseModel.load_model (app.py lines 75 to 87):
the torch.load outcome is supplied as a parameter; on success the model
field holds the deserialized network, on any exception the untrained
fallback. The field starts as None (line 66) and both branches assign a
network, so the result is always present. -/
def load_model (loadOutcome : Except (List Char) Unit) : Option LoadedNet :=
  match loadOutcome with
  | .ok _ => some LoadedNet.fromFile
  | .error _ => some LoadedNet.dummyResnet

/-- Body of the health response, app.py line 128. -/
structure HealthBody where
  status : List Char
  model_loaded : Bool
deriving DecidableEq

/-- Embedding of the health route handler, app.py lines 126 to 128. -/
def health_check (model : Option LoadedNet) : Nat × HealthBody :=
  (200, { status := "healthy".data, model_loaded := model.isSome })

/-- Bytes of an HTTP response fetched by the URL handler. -/
structure HttpResp where
  status : Nat
  content : List Nat

/-- Message of the HTTPError raised for a 4xx or 5xx status; the precise
requests wording is immaterial, only that it is non-empty and carries the
status code. -/
def httpErrorMsg (code : Nat) : List Char :=
  (toString code).data ++ " client or server error".data

/-- Embedding of response.raise_for_status (app.py line 175, delegating
to the requests library): raises HTTPError, a RequestException, exactly
for status codes in the interval from 400 to 599. -/
def raise_for_status (resp : HttpResp) : Except (List Char) Unit :=
  if 400 ≤ resp.status ∧ resp.status < 600 then
    Except.error (httpErrorMsg resp.status)
  else Except.ok ()

/-- Text prepended to download failures at app.py line 190. -/
def failedDownloadHead : List Char := "Failed to download image: ".data

/-- Message for requests.get applied to a non-string URL value, which
raises a RequestException subclass before any network activity. -/
def invalidUrlMsg : List Char := "invalid URL".data

/-- Embedding of the URL route handler, app.py lines 159 to 193, on a
parsed JSON body. The network fetch is supplied as the parameter fetch
(exception text of the RequestException on network failure), the image
decoding as decodeImage over response bytes (its exceptions are PIL
errors, never RequestException, hence answered 500), and the numeric
pipeline as inference, consumed through predict. RequestException,
including the HTTPError from raise_for_status, is answered 400 with the
download-failure text; any other exception 500 with its text. -/
def predict_from_url {Img : Type}
    (fetch : List Char → Except (List Char) HttpResp)
    (decodeImage : List Nat → Except (List Char) Img)
    (inference : Img → Except (List Char) (Nat × ℚ))
    (data : Json) : Nat × RespBody :=
  match inJson urlKey data with
  | .error e => (500, RespBody.err e)
  | .ok b =>
    if b then
      match subscriptJson urlKey data with
      | .error e => (500, RespBody.err e)
      | .ok (Json.str image_url) =>
        match fetch image_url with
        | .error e => (400, RespBody.err (failedDownloadHead ++ e))
        | .ok resp =>
          match raise_for_status resp with
          | .error e => (400, RespBody.err (failedDownloadHead ++ e))
          | .ok _ =>
            match decodeImage resp.content with
            | .error e => (500, RespBody.err e)
            | .ok img => respondResult (predict (inference img))
      | .ok _ => (400, RespBody.err (failedDownloadHead ++ invalidUrlMsg))
    else (400, RespBody.err noUrlMsg)

/-- Base64 alphabet including the padding character: the characters a
bare base64 payload consists of. -/
def base64Char (c : Char) : Bool :=
  ('A' ≤ c && c ≤ 'Z') || ('a' ≤ c && c ≤ 'z') || ('0' ≤ c && c ≤ '9') ||
    c == '+' || c == '/' || c == '='

/-- Data-URL form of a base64 payload with the given mime suffix, as in
the specification phrase data colon image slash dots semicolon base64
comma payload. -/
def dataUrlOf (mime s : List Char) : List Char :=
  "data:image/".data ++ mime ++ (";base64,".data ++ s)

/-- Constant downstream pipeline used to exercise the predict handler at
concrete inputs. -/
def constPipe : List Char → Nat × RespBody :=
  fun _ => (200, RespBody.err [])

end PlantApp

namespace PlantApp

/-- Characterization of the prefix test: startswith p s holds exactly when s
extends p on the right. -/
theorem startswith_iff : ∀ p s : List Char, startswith p s = true ↔ ∃ t, p ++ t = s
  | [], s => by simp [startswith]
  | a :: as, [] => by simp [startswith]
  | a :: as, b :: bs => by
    simp only [startswith, Bool.and_eq_true, beq_iff_eq]
    constructor
    · rintro ⟨rfl, h⟩
      obtain ⟨t, rfl⟩ := (startswith_iff as bs).1 h
      exact ⟨t, rfl⟩
    · rintro ⟨t, h⟩
      injection h with h1 h2
      exact ⟨h1, (startswith_iff as bs).2 ⟨t, h2⟩⟩

/-- Characterization of substring containment: inStr needle hay holds exactly
when hay splits as a part, the needle, and another part. -/
theorem inStr_iff : ∀ needle hay : List Char,
    inStr needle hay = true ↔ ∃ p q, p ++ needle ++ q = hay
  | needle, [] => by
    simp only [inStr, List.isEmpty_iff]
    constructor
    · rintro rfl
      exact ⟨[], [], rfl⟩
    · rintro ⟨p, q, h⟩
      have := List.append_eq_nil.1 h
      exact (List.append_eq_nil.1 this.1).2
  | needle, c :: rest => by
    simp only [inStr, Bool.or_eq_true]
    constructor
    · rintro (h | h)
      · obtain ⟨t, ht⟩ := (startswith_iff needle (c :: rest)).1 h
        exact ⟨[], t, ht⟩
      · obtain ⟨p, q, hp⟩ := (inStr_iff needle rest).1 h
        exact ⟨c :: p, q, by simp [hp]⟩
    · rintro ⟨p, q, hp⟩
      match p, hp with
      | [], hp =>
        exact Or.inl ((startswith_iff needle (c :: rest)).2 ⟨q, by simpa using hp⟩)
      | d :: p', hp =>
        have h2 : p' ++ needle ++ q = rest := by
          have := hp
          simp only [List.cons_append] at this
          exact (List.cons_eq_cons.1 this).2
        exact Or.inr ((inStr_iff needle rest).2 ⟨p', q, h2⟩)

/-- C1: for every label string the isHealthy field of the predictor result is
true exactly when the lowercased label contains the token healthy as a
substring; in particular this holds at every label of the fixed catalog
CLASS_NAMES. -/
theorem C1_isHealthy_iff :
    (∀ (label : List Char) (conf : ℚ),
        (mkResult label conf).isHealthy = true ↔
          ∃ p q, p ++ healthyL ++ q = lower label)
    ∧ (∀ label ∈ CLASS_NAMES, ∀ conf : ℚ,
        (mkResult label conf).isHealthy = true ↔
          ∃ p q, p ++ healthyL ++ q = lower label) :=
  ⟨fun label _ => inStr_iff healthyL (lower label),
   fun label _ _ => inStr_iff healthyL (lower label)⟩

/-- Witness for C1 at the catalog label Apple healthy with confidence zero. -/
theorem C1_isHealthy_iff_witness :
    (mkResult ("Apple___healthy".data) 0).isHealthy = true ↔
      ∃ p q, p ++ healthyL ++ q = lower ("Apple___healthy".data) :=
  C1_isHealthy_iff.2 ("Apple___healthy".data) (by decide) 0

/-- Catalog-wide decomposition facts, decided label by label: the first split
segment is the before-delimiter text, and the disease segment survives exactly
when the label is not healthy and a second segment exists. -/
theorem catalogC2 : ∀ label ∈ CLASS_NAMES,
    extract_plant_type label = replUnd (beforeDelim label)
    ∧ ((if inStr healthyL (lower label) then none
        else extract_disease_type label) ≠ none
          ↔ inStr healthyL (lower label) = false
            ∧ 2 ≤ (split3 label).length) := by decide

/-- C2: over the catalog, plantType is the before-delimiter segment with
underscores replaced by spaces, and diseaseType is present exactly when the
label is not healthy and a second delimiter-separated segment exists; for any
string with fewer than two segments the diseaseType is absent. -/
theorem C2_label_decomposition :
    (∀ label ∈ CLASS_NAMES, ∀ conf : ℚ,
        (mkResult label conf).plantType = replUnd (beforeDelim label)
        ∧ ((mkResult label conf).diseaseType ≠ none ↔
            (mkResult label conf).isHealthy = false
            ∧ 2 ≤ (split3 label).length))
    ∧ (∀ (s : List Char) (conf : ℚ), (split3 s).length < 2 →
        (mkResult s conf).diseaseType = none) := by
  constructor
  · intro label hmem conf
    exact catalogC2 label hmem
  · intro s _ h
    have h1 : (split3 s).get? 1 = none := List.get?_len_le (by omega)
    simp only [mkResult, extract_disease_type, h1]
    cases hh : inStr healthyL (lower s) <;> simp [hh]

/-- Witness for C2 at the catalog label Apple scab and at a short string
without any delimiter. -/
theorem C2_label_decomposition_witness :
    ((mkResult ("Apple___Apple_scab".data) 0).plantType
        = replUnd (beforeDelim ("Apple___Apple_scab".data))
      ∧ ((mkResult ("Apple___Apple_scab".data) 0).diseaseType ≠ none ↔
          (mkResult ("Apple___Apple_scab".data) 0).isHealthy = false
          ∧ 2 ≤ (split3 ("Apple___Apple_scab".data)).length))
    ∧ (mkResult ("abc".data) 0).diseaseType = none :=
  ⟨C2_label_decomposition.1 ("Apple___Apple_scab".data) (by decide) 0,
   C2_label_decomposition.2 ("abc".data) 0 (by decide)⟩

/-- C3: the catalog is not duplicate-free: positions 26 and 28 both hold the
Strawberry healthy label, contradicting the uniqueness the specification
asserts for CLASS_NAMES. -/
theorem C3_duplicate_label :
    CLASS_NAMES.get? 26 = some ("Strawberry___healthy".data)
    ∧ CLASS_NAMES.get? 28 = some ("Strawberry___healthy".data)
    ∧ ¬ CLASS_NAMES.Nodup := by decide

end PlantApp

namespace PlantApp

/-- C4 counterexample: at the out-of-range predicted index 39 the catalog
lookup raises IndexError inside the try block, predict yields the absent
result, and the HTTP layer answers a generic 500: the prediction does not
complete silently with a label. -/
theorem C4_out_of_range_counterexample :
    predict (Except.ok (39, 0)) = none
    ∧ respondResult (predict (Except.ok (39, 0))) =
        (500, RespBody.err predictionFailedMsg) := by decide

/-- C4 amended: any in-range predicted index completes with status 200 and
some catalog label with no signal of a catalog mismatch, while an
out-of-range index raises, is caught, and surfaces as the generic 500. -/
theorem C4_index_mapping :
    (∀ (idx : Nat) (conf : ℚ), idx < CLASS_NAMES.length →
        ∃ r, predict (Except.ok (idx, conf)) = some r
          ∧ respondResult (predict (Except.ok (idx, conf))) =
              (200, RespBody.result r))
    ∧ (∀ (idx : Nat) (conf : ℚ), CLASS_NAMES.length ≤ idx →
        predict (Except.ok (idx, conf)) = none
          ∧ respondResult (predict (Except.ok (idx, conf))) =
              (500, RespBody.err predictionFailedMsg)) := by
  constructor
  · intro idx conf h
    have hl : CLASS_NAMES[idx]? = some (CLASS_NAMES[idx]) :=
      List.getElem?_eq_getElem h
    exact ⟨mkResult (CLASS_NAMES[idx]) conf,
      by simp [predict, hl, respondResult]⟩
  · intro idx conf h
    have hl : CLASS_NAMES[idx]? = none := List.getElem?_len_le h
    simp [predict, hl, respondResult]

/-- Witness for C4 at the in-range index 0 and the out-of-range index 39. -/
theorem C4_index_mapping_witness :
    (∃ r, predict (Except.ok (0, 0)) = some r
        ∧ respondResult (predict (Except.ok (0, 0))) =
            (200, RespBody.result r))
    ∧ (predict (Except.ok (39, 0)) = none
        ∧ respondResult (predict (Except.ok (39, 0))) =
            (500, RespBody.err predictionFailedMsg)) :=
  ⟨C4_index_mapping.1 0 0 (by decide), C4_index_mapping.2 39 0 (by decide)⟩

/-- C5: whatever the outcome of deserializing the weights file, the model
field is populated and the health endpoint answers 200 with model_loaded
true. -/
theorem C5_health_always_loaded :
    ∀ loadOutcome : Except (List Char) Unit,
      (load_model loadOutcome).isSome = true
      ∧ health_check (load_model loadOutcome) =
          (200, { status := "healthy".data, model_loaded := true }) := by
  intro o
  cases o <;> exact ⟨rfl, rfl⟩

/-- Witness for C5 at a failing load outcome. -/
theorem C5_health_always_loaded_witness :
    (load_model (Except.error ("bad weights file".data))).isSome = true
    ∧ health_check (load_model (Except.error ("bad weights file".data))) =
        (200, { status := "healthy".data, model_loaded := true }) :=
  C5_health_always_loaded (Except.error ("bad weights file".data))

/-- C6: any exception during inference yields the absent result, and the
HTTP layer maps the absent result to the generic 500 prediction-failed
body. -/
theorem C6_exception_absent_500 :
    (∀ e : List Char, predict (Except.error e) = none)
    ∧ respondResult none = (500, RespBody.err predictionFailedMsg) :=
  ⟨fun _ => rfl, rfl⟩

/-- Witness for C6 at a concrete inference exception. -/
theorem C6_exception_absent_500_witness :
    predict (Except.error ("RuntimeError: shape mismatch".data)) = none
    ∧ respondResult none = (500, RespBody.err predictionFailedMsg) :=
  ⟨C6_exception_absent_500.1 ("RuntimeError: shape mismatch".data),
   C6_exception_absent_500.2⟩

/-- C7: a JSON object body without the image key is answered 400 with the
fixed no-image body, for every downstream pipeline. -/
theorem C7_missing_image_400 :
    ∀ (fields : List (List Char × Json)) (pipe : List Char → Nat × RespBody),
      (∀ kv ∈ fields, kv.1 ≠ imageKey) →
      predictHandler pipe (Json.obj fields) = (400, RespBody.err noImageMsg) := by
  intro fields pipe h
  have hany : (fields.any fun kv => kv.1 == imageKey) = false := by
    rw [List.any_eq_false]
    intro kv hmem hbeq
    exact h kv hmem (eq_of_beq hbeq)
  simp [predictHandler, inJson, hany]

/-- Witness for C7 at the empty object body. -/
theorem C7_missing_image_400_witness :
    predictHandler constPipe (Json.obj []) = (400, RespBody.err noImageMsg) :=
  C7_missing_image_400 [] constPipe (by simp)

end PlantApp

namespace PlantApp

/-- A list starts with itself followed by anything. -/
theorem startswith_self_append : ∀ p t : List Char, startswith p (p ++ t) = true
  | [], _ => rfl
  | a :: as, t => by simp [startswith, startswith_self_append as t]

/-- Every character of a recognized prefix occurs in the full list. -/
theorem startswith_mem : ∀ {p s : List Char}, startswith p s = true →
    ∀ c ∈ p, c ∈ s
  | [], _, _, c, hc => absurd hc (List.not_mem_nil c)
  | _ :: _, [], h, _, _ => by simp [startswith] at h
  | a :: as, b :: bs, h, c, hc => by
    simp only [startswith, Bool.and_eq_true, beq_iff_eq] at h
    rcases List.mem_cons.1 hc with rfl | hc
    · rw [h.1]
      exact List.mem_cons_self _ _
    · exact List.mem_cons_of_mem _ (startswith_mem h.2 c hc)

/-- Splitting a comma-free list on commas gives the list back whole. -/
theorem splitComma_of_not_mem : ∀ {l : List Char}, ',' ∉ l → splitComma l = [l]
  | [], _ => rfl
  | c :: rest, h => by
    have hc : ¬ c = ',' := by
      intro hcc
      subst hcc
      exact h (List.mem_cons_self _ _)
    have hrest : ',' ∉ rest := fun hr => h (List.mem_cons_of_mem _ hr)
    simp [splitComma, hc, splitComma_of_not_mem hrest]

/-- Splitting at the first comma: a comma-free part before the comma becomes
the first segment. -/
theorem splitComma_append : ∀ {a : List Char} (b : List Char), ',' ∉ a →
    splitComma (a ++ ',' :: b) = a :: splitComma b
  | [], b, _ => by simp [splitComma]
  | c :: a', b, h => by
    have hc : ¬ c = ',' := by
      intro hcc
      subst hcc
      exact h (List.mem_cons_self _ _)
    have ha' : ',' ∉ a' := fun hr => h (List.mem_cons_of_mem _ hr)
    have ih := splitComma_append (a := a') b ha'
    simp [splitComma, hc, ih]

/-- The data-URL head literal extends the marker tested by startswith. -/
theorem dataImageSlash : "data:image/".data = dataImageTag ++ "/".data := by
  decide

/-- Decomposition of the data-URL form at its first comma. -/
theorem dataUrlOf_decomp (mime s : List Char) :
    dataUrlOf mime s =
      ("data:image/".data ++ mime ++ ";base64".data) ++ ',' :: s := by
  simp only [dataUrlOf, List.append_assoc]
  rfl

/-- C8: a data-URL-prefixed base64 payload strips to the bare payload, the
bare payload passes through the stripping step unchanged, and the predict
handler therefore answers both forms identically, for every downstream
pipeline. -/
theorem C8_dataurl_equivalence :
    ∀ (mime s : List Char) (pipe : List Char → Nat × RespBody),
      ',' ∉ mime → (∀ c ∈ s, base64Char c = true) →
      stripDataUrl (dataUrlOf mime s) = Except.ok s
      ∧ stripDataUrl s = Except.ok s
      ∧ predictHandler pipe (Json.obj [(imageKey, Json.str (dataUrlOf mime s))])
          = predictHandler pipe (Json.obj [(imageKey, Json.str s)]) := by
  intro mime s pipe hm hs
  have hcomma_s : ',' ∉ s := by
    intro hc
    exact absurd (hs ',' hc) (by decide)
  have hpre : ',' ∉ ("data:image/".data ++ mime ++ ";base64".data) := by
    intro hc
    rcases List.mem_append.1 hc with hc | hc
    · rcases List.mem_append.1 hc with hc | hc
      · exact absurd hc (by decide)
      · exact hm hc
    · exact absurd hc (by decide)
  have hstart : startswith dataImageTag (dataUrlOf mime s) = true := by
    have hdec : dataUrlOf mime s =
        dataImageTag ++ ("/".data ++ (mime ++ (";base64,".data ++ s))) := by
      simp only [dataUrlOf, dataImageSlash, List.append_assoc]
      rfl
    rw [hdec]
    exact startswith_self_append _ _
  have hnostart : startswith dataImageTag s = false := by
    rcases hns : startswith dataImageTag s with _ | _
    · rfl
    · have hcolon : ':' ∈ s := startswith_mem hns ':' (by decide)
      exact absurd (hs ':' hcolon) (by decide)
  have hsplit : splitComma (dataUrlOf mime s) =
      [("data:image/".data ++ mime ++ ";base64".data), s] := by
    rw [dataUrlOf_decomp, splitComma_append s hpre, splitComma_of_not_mem hcomma_s]
  have strip1 : stripDataUrl (dataUrlOf mime s) = Except.ok s := by
    simp [stripDataUrl, hstart, hsplit]
  have strip2 : stripDataUrl s = Except.ok s := by
    simp [stripDataUrl, hnostart]
  have hH : ∀ X : List Char, stripDataUrl X = Except.ok s →
      predictHandler pipe (Json.obj [(imageKey, Json.str X)]) = pipe s := by
    intro X hX
    simp [predictHandler, inJson, subscriptJson, hX]
  exact ⟨strip1, strip2, by rw [hH _ strip1, hH _ strip2]⟩

/-- Witness for C8 at the mime suffix jpeg and a concrete base64 payload. -/
theorem C8_dataurl_equivalence_witness :
    stripDataUrl (dataUrlOf ("jpeg".data) ("QUJD".data)) =
        Except.ok ("QUJD".data)
    ∧ stripDataUrl ("QUJD".data) = Except.ok ("QUJD".data)
    ∧ predictHandler constPipe
        (Json.obj [(imageKey, Json.str (dataUrlOf ("jpeg".data) ("QUJD".data)))])
        = predictHandler constPipe (Json.obj [(imageKey, Json.str ("QUJD".data))]) :=
  C8_dataurl_equivalence ("jpeg".data) ("QUJD".data) constPipe (by decide)
    (by decide)

end PlantApp

namespace PlantApp

/-- C9: with the url field present, a RequestException from the fetch is
answered 400 with the non-empty download-failure message, a 4xx or 5xx
response status raises inside raise_for_status and is answered 400 with a
non-empty message as well, while an image-decoding failure after a
successful download, or an inference exception, is answered 500. -/
theorem C9_url_failure_codes {Img : Type} :
    ∀ (u e : List Char)
      (fetch : List Char → Except (List Char) HttpResp)
      (decodeImage : List Nat → Except (List Char) Img)
      (inference : Img → Except (List Char) (Nat × ℚ)),
      (fetch u = Except.error e →
        predict_from_url fetch decodeImage inference
            (Json.obj [(urlKey, Json.str u)])
          = (400, RespBody.err (failedDownloadHead ++ e))
        ∧ failedDownloadHead ++ e ≠ [])
      ∧ (∀ resp, fetch u = Except.ok resp →
          400 ≤ resp.status → resp.status < 600 →
          predict_from_url fetch decodeImage inference
              (Json.obj [(urlKey, Json.str u)])
            = (400, RespBody.err (failedDownloadHead ++ httpErrorMsg resp.status))
          ∧ failedDownloadHead ++ httpErrorMsg resp.status ≠ [])
      ∧ (∀ resp, fetch u = Except.ok resp →
          ¬ (400 ≤ resp.status ∧ resp.status < 600) →
          decodeImage resp.content = Except.error e →
          predict_from_url fetch decodeImage inference
              (Json.obj [(urlKey, Json.str u)])
            = (500, RespBody.err e))
      ∧ (∀ resp img, fetch u = Except.ok resp →
          ¬ (400 ≤ resp.status ∧ resp.status < 600) →
          decodeImage resp.content = Except.ok img →
          inference img = Except.error e →
          predict_from_url fetch decodeImage inference
              (Json.obj [(urlKey, Json.str u)])
            = (500, RespBody.err predictionFailedMsg)) := by
  intro u e fetch decodeImage inference
  refine ⟨fun hf => ?_, fun resp hf h4 h6 => ?_, fun resp hf hok hd => ?_,
    fun resp img hf hok hd hi => ?_⟩
  · constructor
    · simp [predict_from_url, inJson, subscriptJson, hf]
    · simp [failedDownloadHead]
  · constructor
    · have hr : raise_for_status resp =
          Except.error (httpErrorMsg resp.status) := by
        simp [raise_for_status, h4, h6]
      simp [predict_from_url, inJson, subscriptJson, hf, hr]
    · simp [failedDownloadHead]
  · have hr : raise_for_status resp = Except.ok () := by
      simp [raise_for_status, hok]
    simp [predict_from_url, inJson, subscriptJson, hf, hr, hd]
  · have hr : raise_for_status resp = Except.ok () := by
      simp [raise_for_status, hok]
    simp [predict_from_url, inJson, subscriptJson, hf, hr, hd, hi, predict,
      respondResult]

/-- Witness for C9 at an unreachable URL whose fetch raises a concrete
RequestException. -/
theorem C9_url_failure_codes_witness :
    predict_from_url (fun _ => Except.error ("connection refused".data))
        (fun (_ : List Nat) => Except.error ([] : List Char) :
          List Nat → Except (List Char) Unit)
        (fun _ => Except.error ([] : List Char))
        (Json.obj [(urlKey, Json.str ("http://10.0.0.1/leaf.jpg".data))])
      = (400, RespBody.err (failedDownloadHead ++ "connection refused".data))
    ∧ failedDownloadHead ++ "connection refused".data ≠ [] :=
  (C9_url_failure_codes ("http://10.0.0.1/leaf.jpg".data)
      ("connection refused".data)
      (fun _ => Except.error ("connection refused".data))
      (fun _ => Except.error ([] : List Char))
      (fun _ => Except.error ([] : List Char))).1 rfl

/-- C10 counterexample: the string body hello is a non-object body on which
the membership test does not raise: the handler answers 400 with the
no-image body, not a 500 with exception text. -/
theorem C10_string_body_counterexample :
    predictHandler constPipe (Json.str ("hello".data)) =
        (400, RespBody.err noImageMsg)
    ∧ (predictHandler constPipe (Json.str ("hello".data))).1 ≠ 500 := by
  decide

/-- C10 amended: a body parsed as null, a boolean or a number raises a
TypeError at the membership test and is answered 500 with the exception
text; a string body is searched for the substring image, answered 400 when
it is absent and 500 from the later string subscript when present; a list
body is searched elementwise and answered 400 when no element equals the
string image. -/
theorem C10_nonobject_bodies :
    ∀ pipe : List Char → Nat × RespBody,
      predictHandler pipe Json.null = (500, RespBody.err typeErrNone)
      ∧ (∀ b, predictHandler pipe (Json.bool b) =
          (500, RespBody.err typeErrBool))
      ∧ (∀ q, predictHandler pipe (Json.num q) =
          (500, RespBody.err typeErrNum))
      ∧ (∀ s, inStr imageKey s = false →
          predictHandler pipe (Json.str s) = (400, RespBody.err noImageMsg))
      ∧ (∀ s, inStr imageKey s = true →
          predictHandler pipe (Json.str s) =
            (500, RespBody.err strIndicesMsg))
      ∧ (∀ xs, (∀ j ∈ xs, eqStrJson imageKey j = false) →
          predictHandler pipe (Json.arr xs) =
            (400, RespBody.err noImageMsg)) := by
  intro pipe
  refine ⟨rfl, fun b => rfl, fun q => rfl, fun s hs => ?_, fun s hs => ?_,
    fun xs hxs => ?_⟩
  · simp [predictHandler, inJson, hs]
  · simp [predictHandler, inJson, subscriptJson, hs]
  · have hany : xs.any (eqStrJson imageKey) = false := by
      rw [List.any_eq_false]
      intro j hj hcontra
      exact absurd hcontra (by simp [hxs j hj])
    simp [predictHandler, inJson, hany]

/-- Witness for C10 at a concrete pipeline and the string body hello. -/
theorem C10_nonobject_bodies_witness :
    predictHandler constPipe (Json.str ("hello".data)) =
        (400, RespBody.err noImageMsg)
    ∧ predictHandler constPipe Json.null = (500, RespBody.err typeErrNone) :=
  ⟨(C10_nonobject_bodies constPipe).2.2.2.1 ("hello".data) (by decide),
   (C10_nonobject_bodies constPipe).1⟩

end PlantApp
